import Mathlib

/-
Verification of the layered configuration store core (config.c of the
pygit2 binding).  The wrapper functions of config.c are translated
directly; the collaborators it consumes (the libgit2 backend primitive,
the error-translation helper, the string boundary) are external to the
source file and are modelled from the specification, each such
definition carrying a doc comment that says so.
-/

/-- The backend primitive's distinguished "not found" status code
(GIT_ENOTFOUND of libgit2). -/
def GIT_ENOTFOUND : Int := -3

/-- Smallest value of a C long on the 64-bit hosts this binding targets. -/
def LONG_MIN : Int := -(2 ^ 63)

/-- Largest value of a C long on the 64-bit hosts this binding targets. -/
def LONG_MAX : Int := 2 ^ 63 - 1

/-- The host-language values the typed accessor produces and consumes:
integers (PyLong), booleans (PyBool) and strings. -/
inductive PyValue where
  | int (n : Int)
  | bool (b : Bool)
  | str (s : String)
  deriving DecidableEq

/-- Host-language exceptional conditions raised by the wrapper layer.
keyError carries the looked-up key when one is attached to the exception;
gitError is the generic classified backend error (the BackendError of the
error taxonomy). -/
inductive PyExc where
  | keyError (key : Option String)
  | ioError (msg : String)
  | typeError
  | overflowError
  | gitError (code : Int)
  deriving DecidableEq

/-- The abstract error taxonomy of the specification. -/
inductive ErrKind where
  | notFound
  | ioError
  | invalidArgument
  | typeMismatch
  | backendError
  deriving DecidableEq

/-- Modelled from the spec: the error taxonomy classification of each
surfaced host-language error (NotFound is the KeyError-equivalent kind,
IOError a read/write failure, BackendError any other backend failure). -/
def errKind : PyExc → ErrKind
  | .keyError _ => .notFound
  | .ioError _ => .ioError
  | .typeError => .typeMismatch
  | .overflowError => .typeMismatch
  | .gitError _ => .backendError

/-- Modelled from the spec: the error-translation collaborator (Error_set
of the binding, not part of this source file) classifies a backend status
code and surfaces it; the not-found code becomes the KeyError-equivalent
NotFound classification, every other failure the generic backend error. -/
def Error_set (code : Int) : PyExc :=
  if code = GIT_ENOTFOUND then .keyError none else .gitError code

/-- One (name, value) entry as produced by a backend. -/
structure GitEntry where
  name : String
  value : String
  deriving DecidableEq

/-- Modelled from the spec: the backend primitive contract consumed by the
core, over an abstract backend state.  lookup resolves the key across the
stack (highest precedence wins) and reports the not-found code when the
key is absent in every backend; the mutators return the updated state or
a failure code; iteration produces every entry of every backend in stack
order; multivar iteration produces the values registered under a name,
filtered by the optional regular expression. -/
structure GitOps (σ : Type) where
  getString : σ → String → Except Int String
  deleteEntry : σ → String → Except Int σ
  setBool : σ → String → Bool → Except Int σ
  setInt64 : σ → String → Int → Except Int σ
  setString : σ → String → String → Except Int σ
  entries : σ → List GitEntry
  multivarValues : σ → String → Option String → List String

/-- Modelled from the spec: the int64 parser primitive of the backend
(git_config_parse_int64): an optional sign, base-10 digits, and an
optional unit suffix k/m/g (binary multipliers), rejected when the result
leaves the signed 64-bit range or trailing text remains. -/
def git_config_parse_int64 (s : String) : Option Int :=
  let cs := s.data
  let signed : Int × List Char :=
    match cs with
    | '-' :: r => (-1, r)
    | '+' :: r => (1, r)
    | r => (1, r)
  let digits := signed.2.takeWhile Char.isDigit
  let suffix := signed.2.dropWhile Char.isDigit
  if digits.isEmpty then none
  else
    let mag : Nat := digits.foldl (fun a c => a * 10 + (c.toNat - 48)) 0
    let mul : Option Nat :=
      match suffix with
      | [] => some 1
      | [c] =>
        if c = 'k' ∨ c = 'K' then some 1024
        else if c = 'm' ∨ c = 'M' then some (1024 * 1024)
        else if c = 'g' ∨ c = 'G' then some (1024 * 1024 * 1024)
        else none
      | _ => none
    match mul with
    | none => none
    | some m =>
      let v : Int := signed.1 * ((mag * m : Nat) : Int)
      if LONG_MIN ≤ v ∧ v ≤ LONG_MAX then some v else none

/-- Modelled from the spec: the boolean parser primitive of the backend
(git_config_parse_bool): canonical true/false spellings and the common
aliases yes/no, on/off, 1/0, case-insensitively. -/
def git_config_parse_bool (s : String) : Option Bool :=
  let l := s.toLower
  if l = "true" ∨ l = "yes" ∨ l = "on" ∨ l = "1" then some true
  else if l = "false" ∨ l = "no" ∨ l = "off" ∨ l = "0" then some false
  else none

/-- Config_getitem of config.c: resolve the key to its textual value via
the backend, then coerce: int64 first, then boolean, then the raw string.
The not-found code becomes a KeyError carrying the key; any other failure
is surfaced through the error-translation collaborator. -/
def Config_getitem {σ : Type} (ops : GitOps σ) (s : σ) (key : String) :
    Except PyExc PyValue :=
  match ops.getString s key with
  | .error err =>
    if err = GIT_ENOTFOUND then .error (.keyError (some key))
    else .error (Error_set err)
  | .ok value_str =>
    match git_config_parse_int64 value_str with
    | some value_int => .ok (.int value_int)
    | none =>
      match git_config_parse_bool value_str with
      | some value_bool => .ok (.bool value_bool)
      | none => .ok (.str value_str)

/-- Config_contains of config.c: 1 when the key resolves, 0 exactly on
the not-found code, otherwise -1 with the classified backend error set as
the pending exception. -/
def Config_contains {σ : Type} (ops : GitOps σ) (s : σ) (key : String) :
    Int × Option PyExc :=
  match ops.getString s key with
  | .error err =>
    if err = GIT_ENOTFOUND then (0, none) else (-1, some (Error_set err))
  | .ok _ => (1, none)

/-- A backend-state carrier with no behaviour, used to build the small
concrete instances the witnesses evaluate. -/
def unitOps : GitOps Unit where
  getString := fun _ _ => .error GIT_ENOTFOUND
  deleteEntry := fun _ _ => .error GIT_ENOTFOUND
  setBool := fun _ _ _ => .ok ()
  setInt64 := fun _ _ _ => .ok ()
  setString := fun _ _ _ => .ok ()
  entries := fun _ => []
  multivarValues := fun _ _ _ => []

/-- A store whose backend resolves every key to the literal text 1. -/
def opsOne : GitOps Unit :=
  { unitOps with getString := fun _ _ => .ok "1" }

/-- A store whose backend fails every lookup with a non-not-found code. -/
def failOps : GitOps Unit :=
  { unitOps with getString := fun _ _ => .error (-1) }

/-- PyBool_Check of the host language: true exactly on booleans. -/
def PyBool_Check : PyValue → Bool
  | .bool _ => true
  | _ => false

/-- PyLong_Check of the host language: true on integers and, because the
boolean type is a subtype of the integer type, on booleans as well. -/
def PyLong_Check : PyValue → Bool
  | .int _ => true
  | .bool _ => true
  | .str _ => false

/-- PyObject_IsTrue of the host language: the truth value of an object. -/
def PyObject_IsTrue : PyValue → Bool
  | .int n => n ≠ 0
  | .bool b => b
  | .str t => t ≠ ""

/-- PyLong_AsLong of the host language: the C long value of an object,
returning -1 with a pending exception when the object is not an integer
or leaves the C long range. -/
def PyLong_AsLong : PyValue → Int × Option PyExc
  | .int n =>
    if LONG_MIN ≤ n ∧ n ≤ LONG_MAX then (n, none) else (-1, some .overflowError)
  | .bool b => (if b then 1 else 0, none)
  | .str _ => (-1, some .typeError)

/-- Modelled from the spec: the string boundary collaborator decodes a
host-language string to the text handed to the backend; Config_setitem
reaches it only for values that are neither booleans nor integers. -/
def pyToCStr : PyValue → String
  | .str t => t
  | .int _ => ""
  | .bool _ => ""

/-- The closed set of write commands of the design notes: the dispatch of
Config_setitem resolved into a tagged variant. -/
inductive WriteCmd where
  | delete (key : String)
  | writeBool (key : String) (b : Bool)
  | writeInt (key : String) (n : Int)
  | writeStr (key : String) (t : String)
  deriving DecidableEq

/-- Config_setitem of config.c: an absent value deletes the entry; a
boolean-typed value (checked first, before the integer check it would
also pass) is written through the boolean setter, an integer-typed value
through the int64 setter, anything else as string text; every backend
failure is surfaced through the error-translation collaborator. -/
def Config_setitem {σ : Type} (ops : GitOps σ) (s : σ) (key : String)
    (py_value : Option PyValue) : Except PyExc σ :=
  let r : Except Int σ :=
    match py_value with
    | none => ops.deleteEntry s key
    | some v =>
      if PyBool_Check v then ops.setBool s key (PyObject_IsTrue v)
      else if PyLong_Check v then ops.setInt64 s key (PyLong_AsLong v).1
      else ops.setString s key (pyToCStr v)
  match r with
  | .ok s2 => .ok s2
  | .error err => .error (Error_set err)

/-- The write command issued by the dispatch of Config_setitem, the
tagged-variant view of the same match on the value type. -/
def Config_setitem_cmd (key : String) : Option PyValue → WriteCmd
  | none => .delete key
  | some v =>
    if PyBool_Check v then .writeBool key (PyObject_IsTrue v)
    else if PyLong_Check v then .writeInt key (PyLong_AsLong v).1
    else .writeStr key (pyToCStr v)

/-- Config_init of config.c: no path opens an empty in-memory store; a
path opens that file through the on-disk backend constructor, translating
its not-found code to the host-language IOError and every other failure
through the error-translation collaborator. -/
def Config_init {σ : Type} (open_ondisk : String → Except Int σ)
    (new_config : σ) (path : Option String) : Except PyExc σ :=
  match path with
  | none => .ok new_config
  | some p =>
    match open_ondisk p with
    | .ok c => .ok c
    | .error err =>
      if err = GIT_ENOTFOUND then .error (.ioError "")
      else .error (Error_set err)

/-- Config_get_global_config of config.c: locate the global configuration
file through the file-discovery collaborator, translating its not-found
code to the host-language IOError with the fixed message, then open the
located path as a store. -/
def Config_get_global_config {σ : Type} (find_global : Except Int String)
    (open_ondisk : String → Except Int σ) (new_config : σ) :
    Except PyExc σ :=
  match find_global with
  | .error err =>
    if err = GIT_ENOTFOUND then
      .error (.ioError "Global config file not found.")
    else .error (Error_set err)
  | .ok path => Config_init open_ondisk new_config (some path)

/-- The state of the in-memory-table backend: an association list in
insertion order. -/
abbrev MemStore := List (String × String)

/-- Modelled from the spec: lookup of the in-memory-table backend
primitive, reporting the not-found code when the key has no entry. -/
def memGetString (s : MemStore) (k : String) : Except Int String :=
  match s.lookup k with
  | some v => .ok v
  | none => .error GIT_ENOTFOUND

/-- Modelled from the spec: set of the in-memory-table backend primitive,
updating the owning entry in place or appending a new one. -/
def memSet (s : MemStore) (k v : String) : MemStore :=
  match s with
  | [] => [(k, v)]
  | (k2, v2) :: rest =>
    if k2 = k then (k, v) :: rest else (k2, v2) :: memSet rest k v

/-- Modelled from the spec: delete of the in-memory-table backend
primitive, removing the entry and reporting the not-found code when the
key has none. -/
def memDelete (s : MemStore) (k : String) : Except Int MemStore :=
  match s.lookup k with
  | some _ => .ok (s.filter (fun p => p.1 != k))
  | none => .error GIT_ENOTFOUND

/-- Modelled from the spec: the in-memory-table backend primitive, its
typed setters writing canonical boolean text and canonical decimal text,
its enumeration producing the entries in insertion order. -/
def memOps : GitOps MemStore where
  getString := memGetString
  deleteEntry := memDelete
  setBool := fun s k b => .ok (memSet s k (if b then "true" else "false"))
  setInt64 := fun s k n => .ok (memSet s k (toString n))
  setString := fun s k t => .ok (memSet s k t)
  entries := fun s => s.map (fun p => { name := p.1, value := p.2 })
  multivarValues := fun s name _ => (s.filter (fun p => p.1 == name)).map (fun p => p.2)

/-- Config_foreach_callback_wrapper of config.c: invoke the visitor on
the entry; a visitor failure becomes the return code -1 with the raised
exception left pending, otherwise the visitor result is converted to a C
long, and a conversion result of -1 (a legitimate -1 return as well as a
conversion failure) is returned as -1. -/
def Config_foreach_callback_wrapper
    (py_callback : String → String → Except PyExc PyValue)
    (entry : GitEntry) : Int × Option PyExc :=
  match py_callback entry.name entry.value with
  | .error e => (-1, some e)
  | .ok py_result =>
    let r := PyLong_AsLong py_result
    if r.1 = -1 then (-1, r.2) else (r.1, r.2)

/-- Modelled from the spec (and the in-source docstring of foreach): the
enumeration primitive of the backend visits every entry of every backend
in stack order, halting as soon as a callback returns a value other than
0; that value is the overall result.  The triple carries the result, the
pending exception after the last callback, and the entries on which the
callback was invoked. -/
def git_config_foreach (entry_list : List GitEntry)
    (cb : GitEntry → Int × Option PyExc) :
    Int × Option PyExc × List GitEntry :=
  match entry_list with
  | [] => (0, none, [])
  | e :: rest =>
    let r := cb e
    if r.1 ≠ 0 then (r.1, r.2, [e])
    else
      let t := git_config_foreach rest cb
      (t.1, t.2.1, e :: t.2.2)

/-- The observable outcome of Config_foreach: the object it returns
(none models a NULL return), the exception pending after the call, and
the entries the visitor was invoked on. -/
structure ForeachResult where
  ret : Option PyValue
  exc : Option PyExc
  visited : List GitEntry
  deriving DecidableEq

/-- Config_foreach of config.c: run the enumeration primitive with the
callback wrapper and return the resulting code as a host-language
integer, whatever the pending exception state. -/
def Config_foreach {σ : Type} (ops : GitOps σ) (s : σ)
    (py_callback : String → String → Except PyExc PyValue) : ForeachResult :=
  let t := git_config_foreach (ops.entries s)
    (Config_foreach_callback_wrapper py_callback)
  { ret := some (.int t.1), exc := t.2.1, visited := t.2.2 }

/-- Config_get_multivar_fn_wrapper of config.c: materialize one multivar
value as a host-language string through the string boundary (the decoder
is the to_unicode collaborator); on failure return -2 to abort, otherwise
append the value to the collected list and continue. -/
def Config_get_multivar_fn_wrapper (dec : String → Option String)
    (value : String) (list : List String) : List String × Int :=
  match dec value with
  | none => (list, -2)
  | some item => (list ++ [item], 0)

/-- The iteration core of the multivar enumeration primitive: invoke the
callback on each value, stopping when it returns a value other than 0. -/
def multivarLoop (fn : String → List String → List String × Int) :
    List String → List String → List String × Int
  | [], acc => (acc, 0)
  | v :: rest, acc =>
    let r := fn v acc
    if r.2 ≠ 0 then (r.1, GIT_ENOTFOUND)
    else multivarLoop fn rest r.1

/-- Modelled from the spec: the multivar enumeration primitive of the
backend walks the values registered under the name (filtered by the
regular expression before reaching this loop) and conflates a callback
abort, that is the caller stopping early, with nothing found: both are
reported as the not-found code, and only a complete walk of a nonempty
value sequence reports success. -/
def git_config_get_multivar_foreach (values : List String)
    (fn : String → List String → List String × Int) : List String × Int :=
  if values.isEmpty then ([], GIT_ENOTFOUND)
  else multivarLoop fn values []

/-- Config_get_multivar of config.c: enumerate the values of the multivar
through the enumeration primitive, collecting them into a list; on a
negative status the workaround for the unreliable primitive status treats
a not-found code with a nonempty collected list as success and returns
the list, while every other failure is surfaced through the
error-translation collaborator. -/
def Config_get_multivar {σ : Type} (dec : String → Option String)
    (ops : GitOps σ) (s : σ) (name : String) (regex : Option String) :
    Except PyExc (List String) :=
  let values := ops.multivarValues s name regex
  let r := git_config_get_multivar_foreach values
    (Config_get_multivar_fn_wrapper dec)
  if r.2 < 0 then
    if r.2 = GIT_ENOTFOUND ∧ r.1.length ≠ 0 then .ok r.1
    else .error (Error_set r.2)
  else .ok r.1

/-- A store with two enumerable entries, for the foreach evaluations. -/
def twoEntryOps : GitOps Unit :=
  { unitOps with entries := fun _ => [{ name := "a", value := "1" },
      { name := "b", value := "2" }] }

/-- A store with five enumerable entries, for the short-circuit witness. -/
def fiveEntryOps : GitOps Unit :=
  { unitOps with entries := fun _ => [{ name := "e1", value := "v" },
      { name := "e2", value := "v" }, { name := "e3", value := "v" },
      { name := "e4", value := "v" }, { name := "e5", value := "v" }] }

/-- A visitor returning 3 on the entry named e2 and 0 elsewhere. -/
def visitorThree : String → String → Except PyExc PyValue :=
  fun n _ => if n = "e2" then .ok (.int 3) else .ok (.int 0)

/-- A visitor legitimately returning the integer -1 on every entry. -/
def visitorMinusOne : String → String → Except PyExc PyValue :=
  fun _ _ => .ok (.int (-1))

/-- A visitor that fails on every entry. -/
def visitorRaises : String → String → Except PyExc PyValue :=
  fun _ _ => .error (.ioError "boom")

/-- A store whose multivar a.b holds the two values ok and bad. -/
def badValueOps : GitOps Unit :=
  { unitOps with multivarValues := fun _ _ _ => ["ok", "bad"] }

/-- A string boundary decoder that fails on the text bad and decodes
every other text to itself. -/
def exampleDec : String → Option String :=
  fun v => if v = "bad" then none else some v

/-- Claim C1: for every stored textual value, get coerces in the fixed
order integer, then boolean, then raw string: a text parsing as int64
yields that integer, otherwise a text parsing as boolean yields that
boolean, otherwise the raw string is returned; in particular the literal
text 1 is returned as the integer 1, never as a boolean. -/
theorem c1_getitem_coercion_order (σ : Type) (ops : GitOps σ) (s : σ)
    (k t : String) (h : ops.getString s k = .ok t) :
    (∀ n, git_config_parse_int64 t = some n →
      Config_getitem ops s k = .ok (.int n)) ∧
    (∀ b, git_config_parse_int64 t = none → git_config_parse_bool t = some b →
      Config_getitem ops s k = .ok (.bool b)) ∧
    (git_config_parse_int64 t = none → git_config_parse_bool t = none →
      Config_getitem ops s k = .ok (.str t)) ∧
    (t = "1" → Config_getitem ops s k = .ok (.int 1) ∧
      ∀ b, Config_getitem ops s k ≠ .ok (.bool b)) := by
  refine ⟨?_, ?_, ?_, ?_⟩
  · intro n hn
    simp [Config_getitem, h, hn]
  · intro b hn hb
    simp [Config_getitem, h, hn, hb]
  · intro hn hb
    simp [Config_getitem, h, hn, hb]
  · intro ht
    subst ht
    have hone : git_config_parse_int64 "1" = some 1 := by decide
    constructor
    · simp [Config_getitem, h, hone]
    · intro b
      simp [Config_getitem, h, hone]

/-- Claim C1 witness: a store whose backend holds the literal text 1
resolves it through get as the integer 1. -/
theorem c1_witness :
    opsOne.getString () "a.b" = .ok "1" ∧
    Config_getitem opsOne () "a.b" = .ok (.int 1) :=
  ⟨rfl, ((c1_getitem_coercion_order Unit opsOne () "a.b" "1" rfl).2.2.2 rfl).1⟩

/-- Claim C5 counterexample: on a host where the path does not exist and
no global configuration file exists, open and discoverGlobal both fail
with the IOError classification, not the NotFound classification the
claim names. -/
theorem c5_counterexample :
    Config_init (fun _ : String => (.error GIT_ENOTFOUND : Except Int Unit))
        () (some "/nonexistent") = .error (.ioError "") ∧
    errKind (.ioError "") ≠ ErrKind.notFound ∧
    Config_get_global_config (.error GIT_ENOTFOUND)
        (fun _ : String => (.error GIT_ENOTFOUND : Except Int Unit)) ()
      = .error (.ioError "Global config file not found.") ∧
    errKind (.ioError "Global config file not found.") ≠ ErrKind.notFound := by
  refine ⟨rfl, by decide, rfl, by decide⟩

/-- Claim C5 (amended): open on a nonexistent path fails with IOError
(the binding translates the backend not-found code to IOError rather
than to the NotFound kind), and any other read failure surfaces as the
classified backend error; discoverGlobal on a host lacking a global
configuration file fails with IOError carrying the fixed message, never
the generic backend error. -/
theorem c5_open_notfound_is_ioerror (σ : Type)
    (open_ondisk : String → Except Int σ) (new_config : σ) (p : String)
    (find_global : Except Int String)
    (h1 : open_ondisk p = .error GIT_ENOTFOUND)
    (h2 : find_global = .error GIT_ENOTFOUND) :
    Config_init open_ondisk new_config (some p) = .error (.ioError "") ∧
    errKind (.ioError "") = ErrKind.ioError ∧
    Config_get_global_config find_global open_ondisk new_config
      = .error (.ioError "Global config file not found.") ∧
    (∀ err, err ≠ GIT_ENOTFOUND → ∀ q, open_ondisk q = .error err →
      Config_init open_ondisk new_config (some q) = .error (.gitError err)) := by
  refine ⟨?_, rfl, ?_, ?_⟩
  · simp [Config_init, h1, GIT_ENOTFOUND]
  · simp [Config_get_global_config, h2, GIT_ENOTFOUND]
  · intro err hne q hq
    simp [Config_init, hq, hne, Error_set, hne]

/-- Claim C5 witness: the amended behaviour evaluated on a host with no
files at all. -/
theorem c5_witness :
    ((fun _ : String => (.error GIT_ENOTFOUND : Except Int Unit)) "/nope"
        = .error GIT_ENOTFOUND) ∧
    Config_init (fun _ : String => (.error GIT_ENOTFOUND : Except Int Unit))
        () (some "/nope") = .error (.ioError "") :=
  ⟨rfl,
    (c5_open_notfound_is_ioerror Unit
      (fun _ => .error GIT_ENOTFOUND) () "/nope"
      (.error GIT_ENOTFOUND) rfl rfl).1⟩

/-- Claim C6: get fails with KeyError exactly when the key is absent in
every backend (the backend lookup reports the not-found code), and fails
with the generic backend error, a classification distinct from KeyError
and from the NotFound kind, for any other lookup failure. -/
theorem c6_get_error_taxonomy (σ : Type) (ops : GitOps σ) (s : σ)
    (k : String) :
    (Config_getitem ops s k = .error (.keyError (some k)) ↔
      ops.getString s k = .error GIT_ENOTFOUND) ∧
    (∀ err, ops.getString s k = .error err → err ≠ GIT_ENOTFOUND →
      Config_getitem ops s k = .error (.gitError err) ∧
      errKind (.gitError err) ≠ ErrKind.notFound) := by
  constructor
  · constructor
    · intro h
      cases hg : ops.getString s k with
      | ok t =>
        exfalso
        rw [Config_getitem] at h
        rw [hg] at h
        rcases hi : git_config_parse_int64 t with _ | n
        · rcases hb : git_config_parse_bool t with _ | b
          · simp [hi, hb] at h
          · simp [hi, hb] at h
        · simp [hi] at h
      | error err =>
        rw [Config_getitem] at h
        rw [hg] at h
        by_cases he : err = GIT_ENOTFOUND
        · rw [he]
        · exfalso
          simp [he, Error_set] at h
    · intro h
      simp [Config_getitem, h, GIT_ENOTFOUND]
  · intro err h hne
    constructor
    · simp [Config_getitem, h, hne, Error_set]
    · simp [errKind]

/-- Claim C6 witness: a backend failing with a code other than not-found
surfaces through get as the generic backend error, not a KeyError. -/
theorem c6_witness :
    failOps.getString () "a.b" = .error (-1) ∧
    ((-1 : Int) ≠ GIT_ENOTFOUND) ∧
    Config_getitem failOps () "a.b" = .error (.gitError (-1)) :=
  ⟨rfl, by decide,
    ((c6_get_error_taxonomy Unit failOps () "a.b").2 (-1) rfl (by decide)).1⟩

/-- Claim C7: setting an absent value deletes the entry: on an existing
key the deletion goes through and the key is no longer contained; on a
key absent from every writable backend the deletion fails with the
KeyError-equivalent NotFound classification instead of succeeding
silently. -/
theorem c7_set_null_deletes (σ : Type) (ops : GitOps σ) (s s2 t : σ)
    (k : String)
    (hdel : ops.deleteEntry s k = .ok s2)
    (hgone : ops.getString s2 k = .error GIT_ENOTFOUND)
    (hmiss : ops.deleteEntry t k = .error GIT_ENOTFOUND) :
    Config_setitem ops s k none = .ok s2 ∧
    Config_contains ops s2 k = (0, none) ∧
    Config_setitem ops t k none = .error (.keyError none) ∧
    errKind (.keyError none) = ErrKind.notFound := by
  refine ⟨?_, ?_, ?_, rfl⟩
  · simp [Config_setitem, hdel]
  · simp [Config_contains, hgone]
  · simp [Config_setitem, hmiss, Error_set]

/-- Claim C7 witness: deleting the only key of an in-memory store makes
contains report 0, and deleting from the emptied store raises the
KeyError-equivalent error. -/
theorem c7_witness :
    memOps.deleteEntry [("a.b", "x")] "a.b" = .ok [] ∧
    Config_setitem memOps [("a.b", "x")] "a.b" none = .ok [] ∧
    Config_contains memOps ([] : MemStore) "a.b" = (0, none) ∧
    Config_setitem memOps ([] : MemStore) "a.b" none
      = .error (.keyError none) := by
  have h := c7_set_null_deletes MemStore memOps [("a.b", "x")] [] []
    "a.b" rfl rfl rfl
  exact ⟨rfl, h.1, h.2.1, h.2.2.1⟩

/-- Claim C8: set dispatches on the type of the value: a boolean-typed
input (which would also pass the integer type check, booleans being a
subtype of integers) is dispatched to the boolean setter and written as
canonical boolean text, an integer-typed input to the int64 setter and
written as canonical decimal text, and any other input as string text. -/
theorem c8_set_type_dispatch (k : String) :
    (∀ b, PyLong_Check (.bool b) = true) ∧
    (∀ b, Config_setitem_cmd k (some (.bool b)) = .writeBool k b) ∧
    (∀ n, LONG_MIN ≤ n ∧ n ≤ LONG_MAX →
      Config_setitem_cmd k (some (.int n)) = .writeInt k n) ∧
    (∀ t, Config_setitem_cmd k (some (.str t)) = .writeStr k t) ∧
    (∀ s b, Config_setitem memOps s k (some (.bool b))
      = .ok (memSet s k (if b then "true" else "false"))) ∧
    (∀ s n, LONG_MIN ≤ n ∧ n ≤ LONG_MAX →
      Config_setitem memOps s k (some (.int n))
        = .ok (memSet s k (toString n))) ∧
    (∀ s t, Config_setitem memOps s k (some (.str t))
      = .ok (memSet s k t)) := by
  refine ⟨fun b => rfl, fun b => ?_, fun n hn => ?_, fun t => rfl,
    fun s b => ?_, fun s n hn => ?_, fun s t => rfl⟩
  · cases b <;> rfl
  · simp [Config_setitem_cmd, PyBool_Check, PyLong_Check, PyLong_AsLong, hn]
  · cases b <;> rfl
  · simp [Config_setitem, PyBool_Check, PyLong_Check, PyLong_AsLong, hn, memOps]

/-- Claim C8 witness: the dispatch evaluated at a boolean, an in-range
integer and a string value. -/
theorem c8_witness :
    Config_setitem_cmd "a.b" (some (.bool true)) = .writeBool "a.b" true ∧
    (LONG_MIN ≤ (7 : Int) ∧ (7 : Int) ≤ LONG_MAX) ∧
    Config_setitem_cmd "a.b" (some (.int 7)) = .writeInt "a.b" 7 ∧
    Config_setitem memOps [] "a.b" (some (.int 7))
      = .ok [("a.b", "7")] :=
  ⟨(c8_set_type_dispatch "a.b").2.1 true, by decide,
    (c8_set_type_dispatch "a.b").2.2.1 7 (by decide),
    (c8_set_type_dispatch "a.b").2.2.2.2.2.1 [] 7 (by decide)⟩

/-- Claim C9: contains reports 1 exactly when get succeeds, reports 0
precisely on the not-found condition, and surfaces any other backend
error (reporting -1 with the classified error pending) instead of
converting it to a false answer. -/
theorem c9_contains_iff_get (σ : Type) (ops : GitOps σ) (s : σ)
    (k : String) :
    ((Config_contains ops s k).1 = 1 ↔
      ∃ v, Config_getitem ops s k = .ok v) ∧
    ((Config_contains ops s k).1 = 0 ↔
      ops.getString s k = .error GIT_ENOTFOUND) ∧
    (∀ err, err ≠ GIT_ENOTFOUND → ops.getString s k = .error err →
      Config_contains ops s k = (-1, some (Error_set err))) := by
  refine ⟨?_, ?_, ?_⟩
  · cases hg : ops.getString s k with
    | ok t =>
      constructor
      · intro _
        rcases hi : git_config_parse_int64 t with _ | n
        · rcases hb : git_config_parse_bool t with _ | b
          · exact ⟨.str t, by simp [Config_getitem, hg, hi, hb]⟩
          · exact ⟨.bool b, by simp [Config_getitem, hg, hi, hb]⟩
        · exact ⟨.int n, by simp [Config_getitem, hg, hi]⟩
      · intro _
        simp [Config_contains, hg]
    | error err =>
      by_cases he : err = GIT_ENOTFOUND
      · constructor
        · intro h1
          exfalso
          simp [Config_contains, hg, he] at h1
        · rintro ⟨v, hv⟩
          exfalso
          simp [Config_getitem, hg, he] at hv
      · constructor
        · intro h1
          exfalso
          simp [Config_contains, hg, he] at h1
        · rintro ⟨v, hv⟩
          exfalso
          simp [Config_getitem, hg, he, Error_set] at hv
  · cases hg : ops.getString s k with
    | ok t => simp [Config_contains, hg]
    | error err =>
      by_cases he : err = GIT_ENOTFOUND
      · simp [Config_contains, hg, he]
      · simp [Config_contains, hg, he]
  · intro err hne h
    simp [Config_contains, h, hne]

/-- Claim C9 witness: on a backend failing with a code other than
not-found, contains reports -1 with the classified error pending rather
than a false answer. -/
theorem c9_witness :
    ((-1 : Int) ≠ GIT_ENOTFOUND) ∧
    failOps.getString () "a.b" = .error (-1) ∧
    Config_contains failOps () "a.b" = (-1, some (Error_set (-1))) :=
  ⟨by decide, rfl,
    (c9_contains_iff_get Unit failOps () "a.b").2.2 (-1) (by decide) rfl⟩

/-- The callback wrapper on a visitor that returns an in-range integer:
the wrapper returns that integer with no pending exception. -/
theorem wrapper_ok_int (py_callback : String → String → Except PyExc PyValue)
    (x : GitEntry) (c : Int)
    (he : py_callback x.name x.value = .ok (.int c))
    (hlo : LONG_MIN ≤ c) (hhi : c ≤ LONG_MAX) :
    Config_foreach_callback_wrapper py_callback x = (c, none) := by
  have hAs : PyLong_AsLong (.int c) = (c, none) := by
    simp [PyLong_AsLong, hlo, hhi]
  simp only [Config_foreach_callback_wrapper, he, hAs]
  by_cases h : c = -1
  · subst h
    simp
  · simp [h]

/-- The enumeration primitive over a prefix of entries on which the
callback reports 0 continues past the prefix, visiting it whole. -/
theorem git_config_foreach_prefix_zero (cb : GitEntry → Int × Option PyExc)
    (pre rest : List GitEntry) (h : ∀ x ∈ pre, cb x = (0, none)) :
    git_config_foreach (pre ++ rest) cb =
      ((git_config_foreach rest cb).1, (git_config_foreach rest cb).2.1,
        pre ++ (git_config_foreach rest cb).2.2) := by
  induction pre with
  | nil => simp [git_config_foreach]
  | cons a as ih =>
    have ha : cb a = (0, none) := h a (List.mem_cons_self a as)
    have ih2 := ih (fun x hx => h x (List.mem_cons_of_mem a hx))
    simp only [List.cons_append, git_config_foreach, ha, ih2]
    simp [ih2]

/-- Claim C3: foreach invokes the visitor on entries in enumeration
order and halts as soon as an invocation returns a non-zero integer;
that integer is the overall result and no later entry is visited. -/
theorem c3_foreach_short_circuit (σ : Type) (ops : GitOps σ) (s : σ)
    (visitor : String → String → Except PyExc PyValue)
    (pre post : List GitEntry) (e : GitEntry) (c : Int)
    (hent : ops.entries s = pre ++ e :: post)
    (hpre : ∀ x ∈ pre, Config_foreach_callback_wrapper visitor x = (0, none))
    (he : visitor e.name e.value = .ok (.int c))
    (hc : c ≠ 0) (hlo : LONG_MIN ≤ c) (hhi : c ≤ LONG_MAX) :
    (Config_foreach ops s visitor).ret = some (.int c) ∧
    (Config_foreach ops s visitor).visited = pre ++ [e] := by
  have hw := wrapper_ok_int visitor e c he hlo hhi
  have hp := git_config_foreach_prefix_zero
    (Config_foreach_callback_wrapper visitor) pre (e :: post) hpre
  have hhead : git_config_foreach (e :: post)
      (Config_foreach_callback_wrapper visitor) = (c, none, [e]) := by
    simp [git_config_foreach, hw, hc]
  constructor
  · simp [Config_foreach, hent, hp, hhead]
  · simp [Config_foreach, hent, hp, hhead]

/-- Claim C3 witness: a visitor returning 3 on the second of five entries
makes foreach return 3, with entries three to five unvisited. -/
theorem c3_witness :
    (Config_foreach fiveEntryOps () visitorThree).ret = some (.int 3) ∧
    (Config_foreach fiveEntryOps () visitorThree).visited =
      [⟨"e1", "v"⟩, ⟨"e2", "v"⟩] := by
  have h := c3_foreach_short_circuit Unit fiveEntryOps () visitorThree
    [⟨"e1", "v"⟩] [⟨"e3", "v"⟩, ⟨"e4", "v"⟩, ⟨"e5", "v"⟩] ⟨"e2", "v"⟩ 3
    rfl (by decide) rfl (by decide) (by decide) (by decide)
  exact ⟨h.1, h.2⟩

/-- Claim C4 evaluation: on a two-entry store, a visitor that raises on
the first entry makes foreach return the ordinary integer -1 (not a NULL
return signalling the failure), with the raised exception merely left
pending and the second entry unvisited. -/
theorem c4_visitor_failure_swallowed :
    Config_foreach twoEntryOps () visitorRaises =
      { ret := some (.int (-1)), exc := some (.ioError "boom"),
        visited := [⟨"a", "1"⟩] } ∧
    (Config_foreach twoEntryOps () visitorRaises).ret ≠ none :=
  ⟨rfl, by decide⟩

/-- Claim C10: a visitor legitimately returning the integer -1 on an
entry is indistinguishable, in the value foreach returns and in the
entries visited, from a visitor that fails on that entry: both abort
there and foreach returns the integer -1 in both cases. -/
theorem c10_minus_one_indistinguishable (σ : Type) (ops : GitOps σ) (s : σ)
    (v1 v2 : String → String → Except PyExc PyValue)
    (pre post : List GitEntry) (e : GitEntry) (exc : PyExc)
    (hent : ops.entries s = pre ++ e :: post)
    (hpre1 : ∀ x ∈ pre, Config_foreach_callback_wrapper v1 x = (0, none))
    (hpre2 : ∀ x ∈ pre, Config_foreach_callback_wrapper v2 x = (0, none))
    (h1 : v1 e.name e.value = .ok (.int (-1)))
    (h2 : v2 e.name e.value = .error exc) :
    (Config_foreach ops s v1).ret = (Config_foreach ops s v2).ret ∧
    (Config_foreach ops s v1).ret = some (.int (-1)) ∧
    (Config_foreach ops s v1).visited = (Config_foreach ops s v2).visited := by
  have hw1 : Config_foreach_callback_wrapper v1 e = (-1, none) :=
    wrapper_ok_int v1 e (-1) h1 (by decide) (by decide)
  have hw2 : Config_foreach_callback_wrapper v2 e = (-1, some exc) := by
    simp [Config_foreach_callback_wrapper, h2]
  have hp1 := git_config_foreach_prefix_zero
    (Config_foreach_callback_wrapper v1) pre (e :: post) hpre1
  have hp2 := git_config_foreach_prefix_zero
    (Config_foreach_callback_wrapper v2) pre (e :: post) hpre2
  have hh1 : git_config_foreach (e :: post)
      (Config_foreach_callback_wrapper v1) = (-1, none, [e]) := by
    simp [git_config_foreach, hw1]
  have hh2 : git_config_foreach (e :: post)
      (Config_foreach_callback_wrapper v2) = (-1, some exc, [e]) := by
    simp [git_config_foreach, hw2]
  refine ⟨?_, ?_, ?_⟩ <;> simp [Config_foreach, hent, hp1, hp2, hh1, hh2]

/-- Claim C10 witness: on a concrete two-entry store, a visitor returning
-1 on the first entry and a visitor raising on it produce the same
foreach return value and the same visited entries. -/
theorem c10_witness :
    (Config_foreach twoEntryOps () visitorMinusOne).ret
      = (Config_foreach twoEntryOps () visitorRaises).ret ∧
    (Config_foreach twoEntryOps () visitorMinusOne).ret = some (.int (-1)) ∧
    (Config_foreach twoEntryOps () visitorMinusOne).visited
      = (Config_foreach twoEntryOps () visitorRaises).visited :=
  c10_minus_one_indistinguishable Unit twoEntryOps () visitorMinusOne
    visitorRaises [] [⟨"b", "2"⟩] ⟨"a", "1"⟩ (.ioError "boom") rfl
    (by simp) (by simp) rfl rfl

/-- Claim C2 evaluation: on a store whose multivar a.b holds the values
ok and bad, with the string boundary failing to materialize bad, the
enumeration aborts after collecting one value, and getMultivar returns
the partially collected list as a successful result instead of reporting
the failure: the workaround for the unreliable primitive status treats
the not-found code with a nonempty list as success. -/
theorem c2_partial_list_returned_as_success :
    exampleDec "ok" = some "ok" ∧ exampleDec "bad" = none ∧
    Config_get_multivar exampleDec badValueOps () "a.b" none = .ok ["ok"] :=
  ⟨rfl, rfl, rfl⟩
